import Mathlib

/-!
Verification of the "Atomic Blog" post-store core.

The repository contains three rewrites of the same application
(src/src/PostContext.js, src/src/App-v1.js, src/unnamed/part_000); the
behavioural core shared by all three is a post store holding a list of
posts and a search query, with a derived filtered view and three mutation
operations.  This file gives a shallow embedding of that core and proves
the specified properties about it.
-/

/-- A blog post: a title and a body (src/src/PostContext.js, createRandomPost
returns an object with these two string fields; there is no id field). -/
structure Post where
  title : String
  body : String
deriving DecidableEq

/-- The state owned by the provider component: the two useState slices
`posts` and `searchQuery` (src/src/PostContext.js lines 16-20). -/
structure PostStore where
  posts : List Post
  searchQuery : String
deriving DecidableEq

/-- Embedding of JavaScript `pat` begins list `s` (the anchored step used
by substring search below). -/
def beginsWith : List Char → List Char → Bool
  | [], _ => true
  | _ :: _, [] => false
  | a :: as, b :: bs => a == b && beginsWith as bs

/-- `occursIn pat s` : `pat` occurs contiguously somewhere in `s`. -/
def occursIn (pat : List Char) : List Char → Bool
  | [] => beginsWith pat []
  | c :: rest => beginsWith pat (c :: rest) || occursIn pat rest

/-- Embedding of JavaScript `String.prototype.includes`: substring
containment (src/src/PostContext.js line 28, `.includes(...)`). -/
def jsIncludes (s pat : String) : Bool :=
  occursIn pat.data (s.data)

/-- Embedding of JavaScript `String.prototype.toLowerCase`: lower-case every
character (src/src/PostContext.js line 27, `.toLowerCase()`). -/
def jsToLower (s : String) : String :=
  ⟨s.data.map Char.toLower⟩

/-- The template literal joining a post into searchable text with a single
space separator (src/src/PostContext.js line 26). -/
def joinedText (post : Post) : String :=
  post.title ++ " " ++ post.body

/-- The match check applied to one post by the filter callback
(src/src/PostContext.js lines 25-29). -/
def postMatches (searchQuery : String) (post : Post) : Bool :=
  jsIncludes (jsToLower (joinedText post)) (jsToLower searchQuery)

/-- The derived state `searchedPosts` (src/src/PostContext.js lines 23-30):
when the query is non-empty, filter the posts by the case-folded substring
check; otherwise return `posts` unchanged.  This is the `visiblePosts`
read of the spec. -/
def searchedPosts (posts : List Post) (searchQuery : String) : List Post :=
  if searchQuery.length > 0 then
    posts.filter (fun post => postMatches searchQuery post)
  else
    posts

/-- `handleAddPost` (src/src/PostContext.js lines 32-34): prepend the new
post via the functional update `(posts) => [post, ...posts]`.  The
searchQuery slice is untouched. -/
def handleAddPost (post : Post) (s : PostStore) : PostStore :=
  { s with posts := post :: s.posts }

/-- `handleClearPosts` (src/src/PostContext.js lines 36-38): replace the
posts slice with the empty list.  The searchQuery slice is untouched. -/
def handleClearPosts (s : PostStore) : PostStore :=
  { s with posts := [] }

/-- The `setSearchQuery` state setter exposed through the provider value
(src/src/PostContext.js line 20): replace the query verbatim; the posts
slice is untouched. -/
def setSearchQuery (query : String) (s : PostStore) : PostStore :=
  { s with searchQuery := query }

/-- The initial 30-element seed, `Array.from(\x7b length: 30 \x7d, () =>
createRandomPost())` (src/src/PostContext.js lines 16-18).  The opaque
random generator (faker) is modelled as a stream `gen` of posts, consumed
once per array slot. -/
def initialPosts (gen : Nat → Post) : List Post :=
  (List.range 30).map gen

/-- Store creation performed by `PostProvider` (src/src/PostContext.js
lines 15-20): lazily seed `posts` with 30 generated posts on the initial
render, and initialise `searchQuery` to the empty string. -/
def initStore (gen : Nat → Post) : PostStore :=
  { posts := initialPosts gen, searchQuery := "" }

/-- The data fields of the value object passed to the context provider
(src/src/PostContext.js lines 45-52).  The handler closures of that object
are modelled separately as the operations above. -/
structure PostContextValue where
  posts : List Post
  searchQuery : String
deriving DecidableEq

/-- `usePosts` (src/src/PostContext.js lines 61-67): reading the context
outside a provider yields the default context value `undefined` (modelled
as `none`) and throws; with a provider present it returns the provided
value. -/
def usePosts (context : Option PostContextValue) : Except String PostContextValue :=
  match context with
  | none => Except.error ("PostContext was used outside of the PostProvider")
  | some v => Except.ok v

/-- The local state of the add-post form (src/src/App-v1.js lines 154-155):
the two controlled inputs `title` and `body`. -/
structure FormState where
  title : String
  body : String
deriving DecidableEq

/-- `handleSubmit` of `FormAddPost` (src/src/App-v1.js lines 157-163 and
src/unnamed/part_000 lines 146-152): if either field is falsy (the empty
string) do nothing; otherwise call `onAddPost` once with the pair and reset
both fields.  The result is the list of `onAddPost` calls made, paired with
the form state after the handler runs. -/
def handleSubmit (f : FormState) : List Post × FormState :=
  if f.body = "" ∨ f.title = "" then
    ([], f)
  else
    ([⟨f.title, f.body⟩], ⟨"", ""⟩)

/-- C2: `addPost(post)` yields `post` prepended to the prior list: length
grows by exactly one, the new element sits at index 0, and every previously
present post keeps its prior relative position (shifted by one). -/
theorem handleAddPost_prepend (s : PostStore) (post : Post) :
    (handleAddPost post s).posts = post :: s.posts ∧
    (handleAddPost post s).posts.length = s.posts.length + 1 ∧
    (handleAddPost post s).posts.get? 0 = some post ∧
    ∀ i : Nat, (handleAddPost post s).posts.get? (i + 1) = s.posts.get? i := by
  refine ⟨rfl, rfl, rfl, fun i => rfl⟩

/-- C3: `clearPosts()` empties the store whatever its prior contents, and
running it twice in a row gives the same store as running it once. -/
theorem handleClearPosts_spec (s : PostStore) :
    (handleClearPosts s).posts = [] ∧
    handleClearPosts (handleClearPosts s) = handleClearPosts s := by
  exact ⟨rfl, rfl⟩

/-- C4: with the empty search query, the derived view is exactly `posts`:
same membership, same order, no filtering. -/
theorem searchedPosts_empty_query (posts : List Post) :
    searchedPosts posts ("") = posts := by
  rfl

/-- C9: frame property of the three mutations: `addPost` and `clearPosts`
leave `searchQuery` unchanged, and `setSearchQuery` leaves `posts`
unchanged while storing the query verbatim. -/
theorem mutations_frame (s : PostStore) (post : Post) (query : String) :
    (handleAddPost post s).searchQuery = s.searchQuery ∧
    (handleClearPosts s).searchQuery = s.searchQuery ∧
    (setSearchQuery query s).posts = s.posts ∧
    (setSearchQuery query s).searchQuery = query := by
  exact ⟨rfl, rfl, rfl, rfl⟩

/-- C1: with a non-empty query, the derived view is an order-preserving
sublist of `posts` whose members are exactly the posts whose joined
`title ++ " " ++ body` text, case-folded, contains the case-folded query as
a substring; and any two non-empty queries with the same case-folding
produce the same view. -/
theorem searchedPosts_filter_spec (posts : List Post) (q : String)
    (hq : q.length > 0) :
    List.Sublist (searchedPosts posts q) posts ∧
    (∀ p : Post, p ∈ searchedPosts posts q ↔
      p ∈ posts ∧ postMatches q p = true) ∧
    (∀ q2 : String, q2.length > 0 → jsToLower q = jsToLower q2 →
      searchedPosts posts q = searchedPosts posts q2) := by
  unfold searchedPosts
  rw [if_pos hq]
  refine ⟨List.filter_sublist posts, fun p => ?_, fun q2 hq2 hlow => ?_⟩
  · simp [List.mem_filter]
  · rw [if_pos hq2]
    simp only [postMatches, hlow]

/-- Witness for C1 at the concrete inputs of the spec example: one post
titled "Quantum Driver" and the upper-case query "QUANTUM". -/
theorem searchedPosts_filter_spec_witness :
    List.Sublist (searchedPosts [⟨"Quantum Driver", "spec"⟩] ("QUANTUM"))
      [⟨"Quantum Driver", "spec"⟩] ∧
    (∀ p : Post,
      p ∈ searchedPosts [⟨"Quantum Driver", "spec"⟩] ("QUANTUM") ↔
      p ∈ [⟨"Quantum Driver", "spec"⟩] ∧ postMatches ("QUANTUM") p = true) ∧
    (∀ q2 : String, q2.length > 0 →
      jsToLower ("QUANTUM") = jsToLower q2 →
      searchedPosts [⟨"Quantum Driver", "spec"⟩] ("QUANTUM") =
        searchedPosts [⟨"Quantum Driver", "spec"⟩] q2) :=
  searchedPosts_filter_spec [⟨"Quantum Driver", "spec"⟩] ("QUANTUM") (by decide)

/-- C5: the join between title and body uses a single space separator: for
the post with title "Edge" and body "Case", the query "gecas" (which would
only match a separator-free concatenation) finds nothing, while the query
"dge cas" (which crosses the space) finds the post. -/
theorem searchedPosts_separator_examples :
    searchedPosts [⟨"Edge", "Case"⟩] ("gecas") = [] ∧
    searchedPosts [⟨"Edge", "Case"⟩] ("dge cas") = [⟨"Edge", "Case"⟩] := by
  decide

/-- C6: store creation seeds the posts list with exactly 30 generated
posts and the empty search query, for every generator stream. -/
theorem initStore_spec (gen : Nat → Post) :
    (initStore gen).posts.length = 30 ∧ (initStore gen).searchQuery = "" := by
  refine ⟨?_, rfl⟩
  simp [initStore, initialPosts]

/-- C7: the three mutations are total functions of their stated types: in
particular a malformed post (empty title or empty body) is still prepended
without rejection, clearing always succeeds, and any query string is stored
verbatim. -/
theorem ops_total_even_for_malformed (s : PostStore) (title body query : String)
    (_h : title = "" ∨ body = "") :
    (handleAddPost ⟨title, body⟩ s).posts = ⟨title, body⟩ :: s.posts ∧
    (handleClearPosts s).posts = [] ∧
    (setSearchQuery query s).searchQuery = query := by
  exact ⟨rfl, rfl, rfl⟩

/-- Witness for C7 at a concrete malformed post: empty title, non-empty
body; the prepend still happens. -/
theorem ops_total_even_for_malformed_witness :
    (handleAddPost ⟨"", "body text"⟩ ⟨[], ""⟩).posts =
      (⟨"", "body text"⟩ : Post) :: (⟨[], ""⟩ : PostStore).posts ∧
    (handleClearPosts ⟨[], ""⟩).posts = [] ∧
    (setSearchQuery ("q") ⟨[], ""⟩).searchQuery = "q" :=
  ops_total_even_for_malformed ⟨[], ""⟩ ("") ("body text") ("q") (Or.inl rfl)

/-- C8: the add-post form refuses to call `onAddPost` when either field is
empty (zero calls, state kept); otherwise it makes exactly one call with
the entered pair and resets both fields to the empty string. -/
theorem handleSubmit_spec (f : FormState) :
    (f.title = "" ∨ f.body = "" → handleSubmit f = ([], f)) ∧
    (f.title ≠ "" → f.body ≠ "" →
      handleSubmit f = ([⟨f.title, f.body⟩], ⟨"", ""⟩)) := by
  constructor
  · intro h
    unfold handleSubmit
    rw [if_pos (Or.symm h)]
  · intro ht hb
    unfold handleSubmit
    rw [if_neg (fun hc => hc.elim hb ht)]

/-- Witness for C8: an empty title blocks the call; a filled form makes
exactly one call and resets. -/
theorem handleSubmit_spec_witness :
    handleSubmit ⟨"", "b"⟩ = ([], ⟨"", "b"⟩) ∧
    handleSubmit ⟨"t", "b"⟩ = ([⟨"t", "b"⟩], ⟨"", ""⟩) :=
  ⟨(handleSubmit_spec ⟨"", "b"⟩).1 (Or.inl rfl),
   (handleSubmit_spec ⟨"t", "b"⟩).2 (by decide) (by decide)⟩

/-- C10: reading the post context without a surrounding provider (context
value `undefined`) throws the documented error; with a provider present the
provided value is returned unchanged. -/
theorem usePosts_spec :
    usePosts none =
      Except.error ("PostContext was used outside of the PostProvider") ∧
    ∀ v : PostContextValue, usePosts (some v) = Except.ok v := by
  exact ⟨rfl, fun v => rfl⟩
